import Mathlib

/-!
Verification of `sklearn-compiledtrees` (`compiledtrees/compiled.py`) against its
natural-language specification.

The repository compiles fitted scikit-learn regression trees/ensembles to native
code.  Only the facade `compiledtrees/compiled.py` is available as source; the
code generator (`code_gen.py`) and the native loader (`_compiled`) are modelled
from the specification where a claim needs them — each such definition carries a
doc comment starting `Modelled from the spec:`.

Numeric values (float32/float64 in the original) are modelled as `Rat`; machine
floating point itself is out of scope, the properties verified here are the
structural/algebraic ones of the spec.
-/

namespace Compiledtrees

/-- Modelled from the spec: one node of the Tree IR (§3 Data Model): feature
index, threshold, left/right child ids, leaf value and a leaf flag. -/
structure TreeNode where
  feature : Nat
  threshold : Rat
  left : Nat
  right : Nat
  value : Rat
  is_leaf : Bool
deriving DecidableEq, Repr

/-- Modelled from the spec: the Tree IR — an array of nodes indexed by node id,
root at index 0 (§3). -/
structure Tree where
  nodes : Array TreeNode
deriving DecidableEq, Repr

/-- The recursive tree walk exactly as the claims describe it: at each internal
node descend left if `x[feature] <= threshold` (ties left), else right, until a
leaf, returning the leaf value.  `fuel` bounds the recursion depth (the IR does
not itself verify acyclicity); `none` means the walk ran out of fuel or met a
dangling child id. -/
def walkTree (t : Tree) (x : Array Rat) : Nat → Nat → Option Rat
  | 0, _ => none
  | fuel + 1, i =>
    match t.nodes[i]? with
    | none => none
    | some n =>
      if n.is_leaf then some n.value
      else if x.getD n.feature 0 ≤ n.threshold then walkTree t x fuel n.left
      else walkTree t x fuel n.right

/-- The generated source text, abstracted to its decision structure: the Code
Generator emits nested conditionals (`if x[feature] <= threshold then … else …`)
and `return value` at leaves (§4.1). -/
inductive Stmt where
  | ret (v : Rat)
  | cond (feature : Nat) (threshold : Rat) (thenB elseB : Stmt)
deriving DecidableEq, Repr

/-- Modelled from the spec: `code_gen_tree` (in `code_gen.py`, not under the
available source): emits, for the subtree rooted at node `i`, a nested
conditional comparing `x[feature] <= threshold` and descending to `left` on
true, `right` on false, returning the leaf value at leaves (§4.1).  `fuel`
bounds the recursion; `none` models a structural-invariant violation (dangling
id / cyclic input). -/
def code_gen_tree (t : Tree) : Nat → Nat → Option Stmt
  | 0, _ => none
  | fuel + 1, i =>
    match t.nodes[i]? with
    | none => none
    | some n =>
      if n.is_leaf then some (.ret n.value)
      else
        match code_gen_tree t fuel n.left, code_gen_tree t fuel n.right with
        | some l, some r => some (.cond n.feature n.threshold l r)
        | _, _ => none

/-- Modelled from the spec: the semantics of executing the generated nested
conditionals on one feature vector (§4.1, §6). -/
def execStmt (x : Array Rat) : Stmt → Rat
  | .ret v => v
  | .cond f th s₁ s₂ => if x.getD f 0 ≤ th then execStmt x s₁ else execStmt x s₂

/-- The generated program for an ensemble: one evaluation function per tree
plus the top-level combination parameters (§4.1). -/
structure EnsembleProg where
  treeFns : List Stmt
  weight : Rat
  initial_value : Rat
deriving DecidableEq, Repr

/-- Modelled from the spec: per-tree code generation for an ensemble — each
member tree is compiled from its root exactly like a single tree. -/
def code_gen_trees (fuel : Nat) : List Tree → Option (List Stmt)
  | [] => some []
  | t :: ts =>
    match code_gen_tree t fuel 0, code_gen_trees fuel ts with
    | some s, some ss => some (s :: ss)
    | _, _ => none

/-- Modelled from the spec: `code_gen_ensemble` (in `code_gen.py`, not under
the available source): emits one evaluation function per tree plus a top-level
function computing `initial_value + weight * sum(tree_i(x))` (§4.1). -/
def code_gen_ensemble (trees : List Tree)
    (individual_learner_weight initial_value : Rat) (fuel : Nat) :
    Option EnsembleProg :=
  (code_gen_trees fuel trees).map
    (fun fns => ⟨fns, individual_learner_weight, initial_value⟩)

/-- Modelled from the spec: semantics of the generated top-level ensemble
function: `initial_value + weight * sum(tree_i(x))` (§4.1, §8). -/
def execEnsemble (p : EnsembleProg) (x : Array Rat) : Rat :=
  p.initial_value + p.weight * (p.treeFns.map (execStmt x)).sum

/-- The evaluation code a compiled module implements: either the single-tree
function emitted by `code_gen_tree` or the program emitted by
`code_gen_ensemble`. -/
inductive CompiledCode where
  | single (s : Stmt)
  | ensemble (p : EnsembleProg)
deriving DecidableEq, Repr

/-- Semantics of the compiled module's entry point on one feature vector. -/
def execCode (c : CompiledCode) (x : Array Rat) : Rat :=
  match c with
  | .single s => execStmt x s
  | .ensemble p => execEnsemble p x

/-- Modelled from the spec: `EVALUATE_FN_NAME`, the fixed, documented name of
the generated entry-point function (defined in `code_gen.py`, not under the
available source; §6 "one designated entry-point function with a fixed,
documented name"). -/
def EVALUATE_FN_NAME : String := "evaluate"

/-- Modelled from the spec: the bytes of a compiled shared module, abstracted
to what they determine: the exported entry-point symbol and the evaluation
code it implements (§4.2, §6). -/
structure SharedModule where
  entry : String
  code : CompiledCode
deriving DecidableEq, Repr

/-- Modelled from the spec: `compile_code_to_object` (in `code_gen.py`, not
under the available source) — the Compilation Pipeline turns generated source
into a loadable module exporting the entry point (§4.2). -/
def compile_code_to_object (c : CompiledCode) : SharedModule :=
  ⟨EVALUATE_FN_NAME, c⟩

/-- Modelled from the spec: the Native Loader/Evaluator handle
(`_compiled.CompiledPredictor`, not under the available source): it holds the
resolved evaluation function of one loaded module (§4.3). -/
structure CompiledPredictorHandle where
  code : CompiledCode
deriving DecidableEq, Repr

/-- Modelled from the spec: `_compiled.CompiledPredictor(path, symbol)` opens
the module and resolves the entry-point symbol, failing if the symbol is
absent (§4.3). -/
def loadPredictor (m : SharedModule) (symbol : String) :
    Option CompiledPredictorHandle :=
  if symbol = m.entry then some ⟨m.code⟩ else none

/-- Model of `sklearn.tree.DecisionTreeRegressor` as `compiled.py` uses it: attributes
`n_outputs_`, `n_classes_`, `n_features_` and the fitted tree structure
`tree_` (`none` models Python `None`, an unfitted estimator). -/
structure DecisionTreeRegressor where
  n_outputs_ : Nat
  n_classes_ : Nat
  n_features_ : Nat
  tree_ : Option Tree
deriving DecidableEq, Repr

/-- Model of `sklearn.ensemble.GradientBoostingRegressor` as `compiled.py` uses it:
attribute `n_features` (no trailing underscore in this sklearn version),
`learning_rate`, the flattened `estimators_`, and the scalar the facade reads
via `clf._init_decision_function(np.zeros((1, n_features))).item((0, 0))` —
the model's prior — kept here as the field `init_prior` (that function is
owned by the external ML library). -/
structure GradientBoostingRegressor where
  n_features : Nat
  learning_rate : Rat
  estimators_ : List DecisionTreeRegressor
  init_prior : Rat
deriving DecidableEq, Repr

/-- Model of `sklearn.ensemble.ForestRegressor` as `compiled.py` uses it: attributes
`n_features_`, `n_estimators` and `estimators_`. -/
structure ForestRegressor where
  n_features_ : Nat
  n_estimators : Nat
  estimators_ : List DecisionTreeRegressor
deriving DecidableEq, Repr

/-- The model argument `clf`: one of the three `isinstance` classes that
`compiled.py` dispatches on, or any other object (carrying only its class
name). -/
inductive Clf where
  | decisionTree (dt : DecisionTreeRegressor)
  | gradientBoosting (gb : GradientBoostingRegressor)
  | forest (f : ForestRegressor)
  | other (name : String)
deriving DecidableEq, Repr

/-- Python `clf.__class__.__name__` as used in the `_build` error message. -/
def Clf.className : Clf → String
  | .decisionTree _ => "DecisionTreeRegressor"
  | .gradientBoosting _ => "GradientBoostingRegressor"
  | .forest _ => "ForestRegressor"
  | .other s => s

/-- The `DecisionTreeRegressor` branch of `compilable` (`compiled.py` lines
103–105): `clf.n_outputs_ == 1 and clf.n_classes_ == 1 and clf.tree_ is not
None`. -/
def compilableTree (dt : DecisionTreeRegressor) : Bool :=
  dt.n_outputs_ == 1 && dt.n_classes_ == 1 && dt.tree_.isSome

/-- Embedding of `CompiledRegressionPredictor.compilable` (`compiled.py` lines 87–115).
The ensemble branches require `estimators_.size` truthy (non-empty) and
`all(cls.compilable(e) for e in …)`; the recursive call is on members that are
`DecisionTreeRegressor`s, hence reduces to the first branch, `compilableTree`.
Any other class falls through to `return False`. -/
def compilable : Clf → Bool
  | .decisionTree dt => compilableTree dt
  | .gradientBoosting gb =>
    !gb.estimators_.isEmpty && gb.estimators_.all compilableTree
  | .forest f => !f.estimators_.isEmpty && f.estimators_.all compilableTree
  | .other _ => false

/-- The list comprehension `[e.tree_ for e in estimators]` feeding
`code_gen_ensemble`; `none` models a member whose `tree_` is Python `None`. -/
def memberTrees : List DecisionTreeRegressor → Option (List Tree)
  | [] => some []
  | e :: es =>
    match e.tree_, memberTrees es with
    | some t, some ts => some (t :: ts)
    | _, _ => none

/-- The state of a `CompiledRegressionPredictor` after `__init__`
(`compiled.py` line 32): `self._n_features`, `self._evaluator`, `self._so_f`.
-/
structure CompiledRegressionPredictor where
  _n_features : Nat
  _evaluator : CompiledPredictorHandle
  _so_f : String
deriving DecidableEq, Repr

/-- The local variable `lines` of `_build` (`compiled.py` lines 53–79): which
code-generation call each `isinstance` branch makes.  The single-tree branch
calls `cg.code_gen_tree(tree=clf.tree_)`; the boosting branch calls
`cg.code_gen_ensemble` with `clf.learning_rate` and the prior; the forest
branch calls it with `1.0 / clf.n_estimators` and `0.0`. -/
def clfLines (fuel : Nat) : Clf → Option CompiledCode
  | .decisionTree dt =>
    match dt.tree_ with
    | some t => (code_gen_tree t fuel 0).map .single
    | none => none
  | .gradientBoosting gb =>
    match memberTrees gb.estimators_ with
    | some ts =>
      (code_gen_ensemble ts gb.learning_rate gb.init_prior fuel).map .ensemble
    | none => none
  | .forest f =>
    match memberTrees f.estimators_ with
    | some ts =>
      (code_gen_ensemble ts (1 / (f.n_estimators : Rat)) 0 fuel).map .ensemble
    | none => none
  | .other _ => none

/-- The local variable `n_features` of `_build` (`compiled.py` lines 54–72):
`clf.n_features_` for trees and forests, `clf.n_features` for boosting. -/
def clfNFeatures : Clf → Option Nat
  | .decisionTree dt => some dt.n_features_
  | .gradientBoosting gb => some gb.n_features
  | .forest f => some f.n_features_
  | .other _ => none

/-- Embedding of `CompiledRegressionPredictor._build` (`compiled.py` lines
47–85).  The outer `Except` is the `ValueError` raised for non-compilable
models before any code generation; the inner `Option` models the later failure
modes (a member `tree_` being `None`, the `assert lines is not None`, a
structural-invariant violation during code generation).  `fuel` bounds the
code-generation recursion and `so_path` stands for the transient path the
Compilation Pipeline chooses for the module. -/
def _build (fuel : Nat) (so_path : String) (clf : Clf) :
    Except String (Option CompiledRegressionPredictor) :=
  if compilable clf = false then
    .error ("Predictor " ++ clf.className ++ " cannot be compiled")
  else
    .ok (match clfNFeatures clf, clfLines fuel clf with
      | some nf, some code =>
        match loadPredictor (compile_code_to_object code) EVALUATE_FN_NAME with
        | some ev => some ⟨nf, ev, so_path⟩
        | none => none
      | _, _ => none)

/-- numpy dtypes, as far as the validation in `predict` distinguishes them. -/
inductive DType where
  | float32
  | float64
  | other (name : String)
deriving DecidableEq, Repr

/-- Model of `sklearn.tree.tree.DTYPE`, i.e. `numpy.float32` — the element
type the generated code expects. -/
def DTYPE : DType := .float32

/-- A numpy array as `predict` sees it: `dtype`, `shape` (whose length is
`ndim`) and, meaningful in the 2-D case, the sample rows; `rows.getD i []` is
row `i`. -/
structure NDArray where
  dtype : DType
  shape : List Nat
  rows : List (List Rat)
deriving DecidableEq, Repr

/-- The 1-D output array of `predict`: `np.empty(n_samples, dtype=DTYPE)`
after the native evaluator has filled it. -/
structure OutArray where
  dtype : DType
  values : List Rat
deriving DecidableEq, Repr

/-- The three `ValueError`s of `predict` (`compiled.py` lines 130–142), each
carrying the values its message reports. -/
inductive PredictError where
  | dtypeMismatch (got expected : DType)
  | notTwoDim (shape : List Nat)
  | nFeaturesMismatch (model input : Nat)
deriving DecidableEq, Repr

/-- Modelled from the spec: the native batch evaluation
(`self._evaluator.predict(X, result)`; `_compiled` is not under the available
source): invokes the resolved evaluation function once per sample row, writing
result `i` from row `i` of `X`, rows independent (§4.3, §6). -/
def evaluatorPredict (ev : CompiledPredictorHandle) (X : NDArray)
    (n_samples : Nat) : List Rat :=
  (List.range n_samples).map
    (fun i => execCode ev.code ((X.rows.getD i []).toArray))

/-- Embedding of `CompiledRegressionPredictor.predict` (`compiled.py` lines
117–145), returning the (unchanged) predictor state together with the freshly
allocated output array; the `Except` carries the `ValueError`s in source
order: dtype first, then dimensionality, then feature count. -/
def predict (self : CompiledRegressionPredictor) (X : NDArray) :
    Except PredictError (CompiledRegressionPredictor × OutArray) :=
  if X.dtype ≠ DTYPE then .error (.dtypeMismatch X.dtype DTYPE)
  else if X.shape.length ≠ 2 then .error (.notTwoDim X.shape)
  else
    let n_samples := X.shape.getD 0 0
    let n_features := X.shape.getD 1 0
    if self._n_features ≠ n_features then
      .error (.nFeaturesMismatch self._n_features n_features)
    else
      .ok (self, ⟨DTYPE, evaluatorPredict self._evaluator X n_samples⟩)

/-- A value of the `__getstate__` dict: `n_features` is an int, `so_f` the raw
module bytes; `str` is included so that the spec's metadata record (which also
names the entry point) is expressible for comparison. -/
inductive PyVal where
  | int (n : Nat)
  | str (s : String)
  | bytes (m : SharedModule)
deriving DecidableEq, Repr

/-- The filesystem as `__getstate__` reads it: module bytes by path. -/
def FileSystem := String → Option SharedModule

/-- Embedding of `CompiledRegressionPredictor.__getstate__` (`compiled.py`
lines 34–35): `dict(n_features=self._n_features,
so_f=open(self._so_f).read())`; `none` models the read failing because no file
exists at `self._so_f`. -/
def getstate (fs : FileSystem) (self : CompiledRegressionPredictor) :
    Option (List (String × PyVal)) :=
  match fs self._so_f with
  | some m => some [("n_features", .int self._n_features), ("so_f", .bytes m)]
  | none => none

/-- Embedding of `CompiledRegressionPredictor.__setstate__` (`compiled.py`
lines 37–45): writes `state["so_f"]` to a fresh temporary file (`tmp_path`),
records `n_features` and the new path, and re-loads the evaluator using the
module-level constant `EVALUATE_FN_NAME` — not a name taken from the state;
`none` models a missing/ill-typed key or a failed symbol resolution. -/
def setstate (state : List (String × PyVal)) (tmp_path : String) :
    Option CompiledRegressionPredictor :=
  match state.lookup "so_f", state.lookup "n_features" with
  | some (.bytes m), some (.int nf) =>
    match loadPredictor m EVALUATE_FN_NAME with
    | some ev => some ⟨nf, ev, tmp_path⟩
    | none => none
  | _, _ => none

/-- Modelled from the spec: the persisted form that §6 describes — the module
bytes plus a metadata record `{n_features, entry point name}` — written in the
same dict encoding as `getstate` for comparison with it. -/
def getstate_spec (fs : FileSystem) (self : CompiledRegressionPredictor) :
    Option (List (String × PyVal)) :=
  match fs self._so_f with
  | some m => some [("n_features", .int self._n_features),
      ("entry_point", .str EVALUATE_FN_NAME), ("so_f", .bytes m)]
  | none => none

/-- Per-tree recursive walks over a list of member trees, as the ensemble
claims describe the reference result: each member is walked from its root. -/
def walkTrees (x : Array Rat) (fuel : Nat) : List Tree → Option (List Rat)
  | [] => some []
  | t :: ts =>
    match walkTree t x fuel 0, walkTrees x fuel ts with
    | some v, some vs => some (v :: vs)
    | _, _ => none

/-- Structural well-formedness of a Tree IR as sklearn extracts it: the
children of every internal node lie strictly beyond it and inside the node
array (sklearn appends children after their parent), which guarantees
acyclicity and in-bounds child ids. -/
def Tree.wf (t : Tree) : Prop :=
  ∀ i (h : i < t.nodes.size), (t.nodes[i]).is_leaf = false →
    i < (t.nodes[i]).left ∧ (t.nodes[i]).left < t.nodes.size ∧
    i < (t.nodes[i]).right ∧ (t.nodes[i]).right < t.nodes.size

/-- An estimator whose fitted tree (when present) is well-formed, non-empty
and shallow enough for the given code-generation fuel. -/
def treeOK (fuel : Nat) (e : DecisionTreeRegressor) : Prop :=
  ∀ t, e.tree_ = some t → t.wf ∧ 0 < t.nodes.size ∧ t.nodes.size ≤ fuel

/-- All trees reachable from the model are well-formed and within the
code-generation fuel. -/
def Clf.wfFor (fuel : Nat) : Clf → Prop
  | .decisionTree dt => treeOK fuel dt
  | .gradientBoosting gb => ∀ e ∈ gb.estimators_, treeOK fuel e
  | .forest f => ∀ e ∈ f.estimators_, treeOK fuel e
  | .other _ => True

/-- A depth-1 concrete tree, the spec's scenario (§8) with all values scaled
by 10 so that every rational is an integer (divided rational literals do not
reduce in the kernel): root tests `x[0] <= 5`, left leaf `10`, right leaf
`20`. -/
def sampleTree : Tree :=
  ⟨#[⟨0, 5, 1, 2, 0, false⟩, ⟨0, 0, 0, 0, 10, true⟩, ⟨0, 0, 0, 0, 20, true⟩]⟩

/-- A fitted single-output decision-tree regressor over one feature carrying
`sampleTree`. -/
def sampleDT : DecisionTreeRegressor := ⟨1, 1, 1, some sampleTree⟩

/-- The code the generator emits for `sampleTree`. -/
def sampleStmt : Stmt := .cond 0 5 (.ret 10) (.ret 20)

/-- A predictor as `_build` returns it for `sampleDT`. -/
def samplePredictor : CompiledRegressionPredictor :=
  ⟨1, ⟨.single sampleStmt⟩, "/tmp/sample.so"⟩

/-- The compiled module backing `samplePredictor`. -/
def sampleModule : SharedModule := ⟨EVALUATE_FN_NAME, .single sampleStmt⟩

/-- A one-file filesystem holding `sampleModule` at `samplePredictor`'s path.
-/
def sampleFS : FileSystem :=
  fun p => if p = "/tmp/sample.so" then some sampleModule else none

/-- A two-member boosting ensemble over copies of `sampleDT`, with (integer)
learning rate `3` and prior `7`. -/
def sampleGB : GradientBoostingRegressor := ⟨1, 3, [sampleDT, sampleDT], 7⟩

/-- The predictor `_build` produces for `sampleGB`. -/
def sampleGBPredictor : CompiledRegressionPredictor :=
  ⟨1, ⟨.ensemble ⟨[sampleStmt, sampleStmt], sampleGB.learning_rate,
    sampleGB.init_prior⟩⟩, "/tmp/sample.so"⟩

/-- A two-member forest over copies of `sampleDT` with `n_estimators = 2`. -/
def sampleForest : ForestRegressor := ⟨1, 2, [sampleDT, sampleDT]⟩

/-- The predictor `_build` produces for `sampleForest`: per-tree weight
`1 / n_estimators`, initial value `0`. -/
def sampleForestPredictor : CompiledRegressionPredictor :=
  ⟨1, ⟨.ensemble ⟨[sampleStmt, sampleStmt],
    1 / (sampleForest.n_estimators : Rat), 0⟩⟩, "/tmp/sample.so"⟩

/-- A valid one-sample input for `samplePredictor`: one row, one feature,
value `4` (below the threshold, routing left). -/
def sampleX : NDArray := ⟨DTYPE, [1, 1], [[4]]⟩

end Compiledtrees

namespace Compiledtrees

/-- Generated code of a subtree evaluates exactly as the recursive walk does,
with the same fuel. -/
theorem execStmt_code_gen_tree (t : Tree) (x : Array Rat) :
    ∀ (fuel i : Nat) (s : Stmt), code_gen_tree t fuel i = some s →
      walkTree t x fuel i = some (execStmt x s) := by
  intro fuel
  induction fuel with
  | zero => intro i s h; simp [code_gen_tree] at h
  | succ fuel ih =>
    intro i s h
    rw [code_gen_tree] at h
    rw [walkTree]
    cases hn : t.nodes[i]? with
    | none => simp [hn] at h
    | some n =>
      simp only [hn] at h ⊢
      by_cases hl : n.is_leaf
      · simp [hl] at h ⊢
        subst h
        simp [execStmt]
      · rw [if_neg hl] at h
        rw [if_neg hl]
        cases hcl : code_gen_tree t fuel n.left with
        | none => rw [hcl] at h; exact absurd h (by simp)
        | some l =>
          cases hcr : code_gen_tree t fuel n.right with
          | none => rw [hcl, hcr] at h; exact absurd h (by simp)
          | some r =>
            rw [hcl, hcr] at h
            simp only [Option.some.injEq] at h
            subst h
            simp only [execStmt]
            by_cases hc : x.getD n.feature 0 ≤ n.threshold
            · rw [if_pos hc, if_pos hc, ih n.left l hcl]
            · rw [if_neg hc, if_neg hc, ih n.right r hcr]

/-- Generated per-tree functions of an ensemble evaluate as the per-tree
walks. -/
theorem walkTrees_code_gen_trees (x : Array Rat) (fuel : Nat) :
    ∀ (ts : List Tree) (ss : List Stmt), code_gen_trees fuel ts = some ss →
      walkTrees x fuel ts = some (ss.map (execStmt x)) := by
  intro ts
  induction ts with
  | nil =>
    intro ss h
    simp [code_gen_trees] at h
    subst h
    simp [walkTrees]
  | cons t ts ih =>
    intro ss h
    rw [code_gen_trees] at h
    rw [walkTrees]
    cases hs : code_gen_tree t fuel 0 with
    | none => rw [hs] at h; exact absurd h (by simp)
    | some s =>
      cases hss : code_gen_trees fuel ts with
      | none => rw [hs, hss] at h; exact absurd h (by simp)
      | some ss' =>
        rw [hs, hss] at h
        simp only [Option.some.injEq] at h
        subst h
        rw [execStmt_code_gen_tree t x fuel 0 s hs, ih ss' hss]
        simp

/-- Loading the module just produced by the Compilation Pipeline with the
fixed entry-point name always resolves. -/
theorem loadPredictor_compile (c : CompiledCode) :
    loadPredictor (compile_code_to_object c) EVALUATE_FN_NAME = some ⟨c⟩ := by
  simp [loadPredictor, compile_code_to_object]

/-- Inversion for a successful `_build`: the model was compilable and the
predictor carries exactly the generated code, the dispatched feature count and
the module path. -/
theorem _build_ok_some (fuel : Nat) (so_path : String) (clf : Clf)
    (p : CompiledRegressionPredictor) :
    _build fuel so_path clf = .ok (some p) ↔
      compilable clf = true ∧ ∃ nf code, clfNFeatures clf = some nf ∧
        clfLines fuel clf = some code ∧ p = ⟨nf, ⟨code⟩, so_path⟩ := by
  unfold _build
  cases hc : compilable clf with
  | false => simp
  | true =>
    simp only [Bool.true_eq_false, if_false, reduceCtorEq, true_and]
    cases hnf : clfNFeatures clf with
    | none => simp [hnf]
    | some nf =>
      cases hl : clfLines fuel clf with
      | none => simp [hnf, hl]
      | some code =>
        simp only [loadPredictor_compile, Except.ok.injEq, Option.some.injEq]
        constructor
        · intro h
          exact ⟨nf, code, rfl, rfl, h.symm⟩
        · rintro ⟨nf', code', hnf', hl', hp⟩
          obtain rfl : nf = nf' := hnf'
          obtain rfl : code = code' := hl'
          exact hp.symm

/-- C1: For every compilable single decision tree and every feature vector,
the compiled predictor's output equals the result of recursively walking the
tree — at each internal node descend to the left child if
`x[feature] <= threshold` (equal values route left), else to the right child,
until a leaf, returning that leaf's value. -/
theorem compiled_single_tree_matches_recursive_walk
    (dt : DecisionTreeRegressor) (t : Tree) (fuel : Nat) (so_path : String)
    (p : CompiledRegressionPredictor) (x : Array Rat)
    (ht : dt.tree_ = some t)
    (hb : _build fuel so_path (.decisionTree dt) = .ok (some p)) :
    walkTree t x fuel 0 = some (execCode p._evaluator.code x) := by
  rw [_build_ok_some] at hb
  obtain ⟨-, nf, code, hnf, hl, rfl⟩ := hb
  simp only [clfLines, ht] at hl
  cases hs : code_gen_tree t fuel 0 with
  | none => rw [hs] at hl; exact absurd hl (by simp)
  | some s =>
    rw [hs] at hl
    simp only [Option.map_some', Option.some.injEq] at hl
    subst hl
    simpa [execCode] using execStmt_code_gen_tree t x fuel 0 s hs

/-- C1 witness: the spec's depth-1 scenario (scaled by 10) at the concrete
input `x = [4]`, which routes left to the leaf value `10`. -/
theorem compiled_single_tree_matches_recursive_walk_witness :
    walkTree sampleTree #[(4 : Rat)] 3 0 =
      some (execCode (CompiledCode.single sampleStmt) #[(4 : Rat)]) :=
  compiled_single_tree_matches_recursive_walk sampleDT sampleTree 3
    "/tmp/sample.so" ⟨1, ⟨.single sampleStmt⟩, "/tmp/sample.so"⟩ #[(4 : Rat)]
    rfl (by rfl)

/-- C2: For every compilable additive ensemble (gradient-boosted or forest)
built by `_build` and every feature vector, the compiled predictor's output
equals `initial_value + weight * sum` over all member trees of that tree's
single-tree recursive-walk result. -/
theorem compiled_ensemble_matches_weighted_sum
    (fuel : Nat) (so_path : String) (clf : Clf)
    (p : CompiledRegressionPredictor) (x : Array Rat)
    (hb : _build fuel so_path clf = .ok (some p)) :
    (∀ gb ts ws, clf = .gradientBoosting gb →
      memberTrees gb.estimators_ = some ts → walkTrees x fuel ts = some ws →
      execCode p._evaluator.code x =
        gb.init_prior + gb.learning_rate * ws.sum) ∧
    (∀ f ts ws, clf = .forest f →
      memberTrees f.estimators_ = some ts → walkTrees x fuel ts = some ws →
      execCode p._evaluator.code x =
        0 + (1 / (f.n_estimators : Rat)) * ws.sum) := by
  rw [_build_ok_some] at hb
  obtain ⟨-, nf, code, hnf, hl, rfl⟩ := hb
  constructor
  · rintro gb ts ws rfl hts hws
    simp only [clfLines, hts] at hl
    cases hss : code_gen_trees fuel ts with
    | none => simp [code_gen_ensemble, hss] at hl
    | some ss =>
      simp only [code_gen_ensemble, hss, Option.map_some', Option.some.injEq] at hl
      subst hl
      have hws' := walkTrees_code_gen_trees x fuel ts ss hss
      rw [hws] at hws'
      obtain rfl : ws = ss.map (execStmt x) := Option.some.inj hws'
      simp [execCode, execEnsemble]
  · rintro f ts ws rfl hts hws
    simp only [clfLines, hts] at hl
    cases hss : code_gen_trees fuel ts with
    | none => simp [code_gen_ensemble, hss] at hl
    | some ss =>
      simp only [code_gen_ensemble, hss, Option.map_some', Option.some.injEq] at hl
      subst hl
      have hws' := walkTrees_code_gen_trees x fuel ts ss hss
      rw [hws] at hws'
      obtain rfl : ws = ss.map (execStmt x) := Option.some.inj hws'
      simp [execCode, execEnsemble]

/-- C2 witness: the two-member boosting ensemble `sampleGB` at `x = [4]`; both
member walks return `10`, so the output is `7 + 3 * (10 + 10)`. -/
theorem compiled_ensemble_matches_weighted_sum_witness :
    execCode sampleGBPredictor._evaluator.code #[(4 : Rat)] =
      sampleGB.init_prior + sampleGB.learning_rate * ([(10 : Rat), 10].sum) :=
  (compiled_ensemble_matches_weighted_sum 3 "/tmp/sample.so"
    (.gradientBoosting sampleGB) sampleGBPredictor #[(4 : Rat)] (by rfl)).1
    sampleGB [sampleTree, sampleTree] [(10 : Rat), 10] rfl rfl (by rfl)

/-- C3: `_build` assigns the ensemble parameters per model variant: for a
gradient-boosted ensemble the per-tree weight is the learning rate and the
initial value is the model's prior; for a forest the per-tree weight is
`1 / n_estimators` and the initial value is `0`; for a single tree no
weighting or bias is applied — the generated code is the bare tree function,
semantically equal to an ensemble of it with weight `1` and bias `0`. -/
theorem build_assigns_ensemble_parameters
    (fuel : Nat) (so_path : String) (clf : Clf)
    (p : CompiledRegressionPredictor)
    (hb : _build fuel so_path clf = .ok (some p)) :
    (∀ gb ts ss, clf = .gradientBoosting gb →
      memberTrees gb.estimators_ = some ts →
      code_gen_trees fuel ts = some ss →
      p._evaluator.code = .ensemble ⟨ss, gb.learning_rate, gb.init_prior⟩) ∧
    (∀ f ts ss, clf = .forest f →
      memberTrees f.estimators_ = some ts →
      code_gen_trees fuel ts = some ss →
      p._evaluator.code =
        .ensemble ⟨ss, 1 / (f.n_estimators : Rat), 0⟩) ∧
    (∀ dt t s, clf = .decisionTree dt → dt.tree_ = some t →
      code_gen_tree t fuel 0 = some s →
      p._evaluator.code = .single s ∧
      ∀ x, execCode p._evaluator.code x = execEnsemble ⟨[s], 1, 0⟩ x) := by
  rw [_build_ok_some] at hb
  obtain ⟨-, nf, code, hnf, hl, rfl⟩ := hb
  refine ⟨?_, ?_, ?_⟩
  · rintro gb ts ss rfl hts hss
    simp only [clfLines, hts] at hl
    simp only [code_gen_ensemble, hss, Option.map_some', Option.some.injEq] at hl
    subst hl
    rfl
  · rintro f ts ss rfl hts hss
    simp only [clfLines, hts] at hl
    simp only [code_gen_ensemble, hss, Option.map_some', Option.some.injEq] at hl
    subst hl
    rfl
  · rintro dt t s rfl ht hs
    simp only [clfLines, ht] at hl
    simp only [hs, Option.map_some', Option.some.injEq] at hl
    subst hl
    refine ⟨rfl, fun x => ?_⟩
    simp [execCode, execEnsemble]

/-- C3 witness: the forest `sampleForest` is built with weight
`1 / n_estimators` and initial value `0`, and the single tree `sampleDT` is
built as the bare tree function. -/
theorem build_assigns_ensemble_parameters_witness :
    sampleForestPredictor._evaluator.code =
      .ensemble ⟨[sampleStmt, sampleStmt],
        1 / (sampleForest.n_estimators : Rat), 0⟩ ∧
    samplePredictor._evaluator.code = .single sampleStmt :=
  ⟨(build_assigns_ensemble_parameters 3 "/tmp/sample.so" (.forest sampleForest)
      sampleForestPredictor (by rfl)).2.1 sampleForest [sampleTree, sampleTree]
      [sampleStmt, sampleStmt] rfl rfl (by rfl),
   ((build_assigns_ensemble_parameters 3 "/tmp/sample.so"
      (.decisionTree sampleDT) samplePredictor (by rfl)).2.2 sampleDT
      sampleTree sampleStmt rfl rfl (by rfl)).1⟩

/-- Code generation succeeds on a well-formed tree given fuel at least the
node count. -/
theorem code_gen_tree_succeeds (t : Tree) (hwf : t.wf) :
    ∀ (fuel i : Nat), i < t.nodes.size → t.nodes.size - i ≤ fuel →
      ∃ s, code_gen_tree t fuel i = some s := by
  intro fuel
  induction fuel with
  | zero => intro i hi hle; omega
  | succ fuel ih =>
    intro i hi hle
    have hn : t.nodes[i]? = some (t.nodes[i]) := Array.getElem?_lt t.nodes hi
    rw [code_gen_tree, hn]
    cases hleaf : (t.nodes[i]).is_leaf with
    | true => exact ⟨.ret (t.nodes[i]).value, by simp [hleaf]⟩
    | false =>
      obtain ⟨hll, hls, hrl, hrs⟩ := hwf i hi hleaf
      obtain ⟨sl, hsl⟩ := ih (t.nodes[i]).left hls (by omega)
      obtain ⟨sr, hsr⟩ := ih (t.nodes[i]).right hrs (by omega)
      refine ⟨.cond (t.nodes[i]).feature (t.nodes[i]).threshold sl sr, ?_⟩
      simp [hleaf, hsl, hsr]

/-- Code generation succeeds on every member of a list of well-formed trees.
-/
theorem code_gen_trees_succeeds (fuel : Nat) :
    ∀ ts : List Tree,
      (∀ t ∈ ts, t.wf ∧ 0 < t.nodes.size ∧ t.nodes.size ≤ fuel) →
      ∃ ss, code_gen_trees fuel ts = some ss := by
  intro ts
  induction ts with
  | nil => intro _; exact ⟨[], rfl⟩
  | cons t ts ih =>
    intro h
    obtain ⟨hwf, hpos, hle⟩ := h t (List.mem_cons_self t ts)
    obtain ⟨s, hs⟩ := code_gen_tree_succeeds t hwf fuel 0 hpos (by omega)
    obtain ⟨ss, hss⟩ := ih (fun u hu => h u (List.mem_cons_of_mem t hu))
    exact ⟨s :: ss, by rw [code_gen_trees, hs, hss]⟩

/-- Extracting the member trees succeeds when every member is fitted, and
every extracted tree comes from some member. -/
theorem memberTrees_succeeds :
    ∀ es : List DecisionTreeRegressor, (∀ e ∈ es, e.tree_.isSome = true) →
      ∃ ts, memberTrees es = some ts ∧
        ∀ t ∈ ts, ∃ e ∈ es, e.tree_ = some t := by
  intro es
  induction es with
  | nil => intro _; exact ⟨[], rfl, by simp⟩
  | cons e es ih =>
    intro h
    have he := h e (List.mem_cons_self e es)
    obtain ⟨t, ht⟩ := Option.isSome_iff_exists.mp he
    obtain ⟨ts, hts, hmem⟩ := ih (fun u hu => h u (List.mem_cons_of_mem e hu))
    refine ⟨t :: ts, by rw [memberTrees, ht, hts], ?_⟩
    intro u hu
    rcases List.mem_cons.mp hu with rfl | hu'
    · exact ⟨e, List.mem_cons_self e es, ht⟩
    · obtain ⟨e', he', ht'⟩ := hmem u hu'
      exact ⟨e', List.mem_cons_of_mem e he', ht'⟩

/-- C4: `_build` rejects every non-compilable model with the `ValueError`
message, before any code generation (the error is the same for every
code-generation fuel, including zero); for every compilable model it returns
without a validation error, and — under the structural well-formedness the
valid extraction guarantees — with a ready predictor. -/
theorem build_rejects_iff_not_compilable (clf : Clf) (fuel : Nat)
    (so_path : String) :
    (compilable clf = false →
      _build fuel so_path clf =
        .error ("Predictor " ++ clf.className ++ " cannot be compiled")) ∧
    (compilable clf = true → ∃ o, _build fuel so_path clf = .ok o) ∧
    (compilable clf = true → Clf.wfFor fuel clf →
      ∃ p, _build fuel so_path clf = .ok (some p)) := by
  refine ⟨?_, ?_, ?_⟩
  · intro h
    simp [_build, h]
  · intro h
    unfold _build
    rw [if_neg (by simp [h])]
    exact ⟨_, rfl⟩
  · intro h hwf
    have h0 := h
    cases clf with
    | other s => simp [compilable] at h
    | decisionTree dt =>
      simp only [compilable, compilableTree, Bool.and_eq_true, beq_iff_eq] at h
      obtain ⟨-, ht⟩ := h
      obtain ⟨t, ht'⟩ := Option.isSome_iff_exists.mp ht
      obtain ⟨hwf', hpos, hle⟩ := hwf t ht'
      obtain ⟨s, hs⟩ := code_gen_tree_succeeds t hwf' fuel 0 hpos (by omega)
      refine ⟨⟨dt.n_features_, ⟨.single s⟩, so_path⟩, ?_⟩
      rw [_build_ok_some]
      refine ⟨h0, dt.n_features_, .single s, rfl, ?_, rfl⟩
      simp [clfLines, ht', hs]
    | gradientBoosting gb =>
      simp only [compilable, Bool.and_eq_true, List.all_eq_true] at h
      obtain ⟨hne, hall⟩ := h
      have hfit : ∀ e ∈ gb.estimators_, e.tree_.isSome = true := by
        intro e he
        have := hall e he
        simp only [compilableTree, Bool.and_eq_true] at this
        exact this.2
      obtain ⟨ts, hts, hmem⟩ := memberTrees_succeeds gb.estimators_ hfit
      have hok : ∀ t ∈ ts, t.wf ∧ 0 < t.nodes.size ∧ t.nodes.size ≤ fuel := by
        intro t htm
        obtain ⟨e, he, het⟩ := hmem t htm
        exact hwf e he t het
      obtain ⟨ss, hss⟩ := code_gen_trees_succeeds fuel ts hok
      refine ⟨⟨gb.n_features,
        ⟨.ensemble ⟨ss, gb.learning_rate, gb.init_prior⟩⟩, so_path⟩, ?_⟩
      rw [_build_ok_some]
      refine ⟨h0, gb.n_features,
        .ensemble ⟨ss, gb.learning_rate, gb.init_prior⟩, rfl, ?_, rfl⟩
      simp [clfLines, hts, code_gen_ensemble, hss]
    | forest f =>
      simp only [compilable, Bool.and_eq_true, List.all_eq_true] at h
      obtain ⟨hne, hall⟩ := h
      have hfit : ∀ e ∈ f.estimators_, e.tree_.isSome = true := by
        intro e he
        have := hall e he
        simp only [compilableTree, Bool.and_eq_true] at this
        exact this.2
      obtain ⟨ts, hts, hmem⟩ := memberTrees_succeeds f.estimators_ hfit
      have hok : ∀ t ∈ ts, t.wf ∧ 0 < t.nodes.size ∧ t.nodes.size ≤ fuel := by
        intro t htm
        obtain ⟨e, he, het⟩ := hmem t htm
        exact hwf e he t het
      obtain ⟨ss, hss⟩ := code_gen_trees_succeeds fuel ts hok
      refine ⟨⟨f.n_features_,
        ⟨.ensemble ⟨ss, 1 / (f.n_estimators : Rat), 0⟩⟩, so_path⟩, ?_⟩
      rw [_build_ok_some]
      refine ⟨h0, f.n_features_,
        .ensemble ⟨ss, 1 / (f.n_estimators : Rat), 0⟩, rfl, ?_, rfl⟩
      simp [clfLines, hts, code_gen_ensemble, hss]

/-- The concrete sample tree is well-formed. -/
theorem sampleTree_wf : sampleTree.wf := by
  intro i h hl
  have h3 : i < 3 := by simpa [sampleTree] using h
  interval_cases i <;> simp_all [sampleTree]

/-- C4 witness: an unsupported class is rejected with the `ValueError`
message, and the compilable `sampleDT` builds a ready predictor. -/
theorem build_rejects_iff_not_compilable_witness :
    _build 0 "/tmp/x.so" (.other "SVR") =
      .error "Predictor SVR cannot be compiled" ∧
    ∃ p, _build 3 "/tmp/sample.so" (.decisionTree sampleDT) = .ok (some p) :=
  ⟨(build_rejects_iff_not_compilable (.other "SVR") 0 "/tmp/x.so").1 (by rfl),
   (build_rejects_iff_not_compilable (.decisionTree sampleDT) 3
      "/tmp/sample.so").2.2 (by rfl)
     (by
       intro t ht
       simp only [sampleDT, Option.some.injEq] at ht
       subst ht
       exact ⟨sampleTree_wf, by simp [sampleTree], by simp [sampleTree]⟩)⟩

/-- C5: `compilable` is total (a Lean function never raises) and returns true
exactly for the supported variants: a single decision-tree regressor with one
output, one class and a fitted tree, or a non-empty gradient-boosted/forest
ensemble all of whose members are themselves compilable (the member check is
the same `compilable` applied to each member). -/
theorem compilable_characterization (clf : Clf) :
    compilable clf = true ↔
      (∃ dt, clf = .decisionTree dt ∧ dt.n_outputs_ = 1 ∧ dt.n_classes_ = 1 ∧
        dt.tree_.isSome = true) ∨
      (∃ gb, clf = .gradientBoosting gb ∧ gb.estimators_ ≠ [] ∧
        ∀ e ∈ gb.estimators_, compilable (.decisionTree e) = true) ∨
      (∃ f, clf = .forest f ∧ f.estimators_ ≠ [] ∧
        ∀ e ∈ f.estimators_, compilable (.decisionTree e) = true) := by
  cases clf with
  | decisionTree dt =>
    simp [compilable, compilableTree, Bool.and_eq_true, and_assoc]
  | gradientBoosting gb =>
    simp [compilable, compilableTree, List.all_eq_true, List.isEmpty_iff]
  | forest f =>
    simp [compilable, compilableTree, List.all_eq_true, List.isEmpty_iff]
  | other s =>
    simp [compilable]

/-- C6: `predict` raises an input-validation `ValueError` reporting the
mismatched values whenever the dtype differs from the expected fixed-width
float type, the input is not two-dimensional, or the second-dimension size
differs from the recorded feature count — and in those cases the result is an
error, so the native evaluation function is never invoked; otherwise no
validation error is raised and the native batch evaluation runs. -/
theorem predict_validates_input (self : CompiledRegressionPredictor)
    (X : NDArray) :
    (X.dtype ≠ DTYPE ∨ X.shape.length ≠ 2 ∨
        X.shape.getD 1 0 ≠ self._n_features →
      predict self X = .error (.dtypeMismatch X.dtype DTYPE) ∨
      predict self X = .error (.notTwoDim X.shape) ∨
      predict self X =
        .error (.nFeaturesMismatch self._n_features (X.shape.getD 1 0))) ∧
    (X.dtype = DTYPE → X.shape.length = 2 →
      X.shape.getD 1 0 = self._n_features →
      predict self X = .ok (self,
        ⟨DTYPE, evaluatorPredict self._evaluator X (X.shape.getD 0 0)⟩)) := by
  constructor
  · intro hbad
    simp only [predict]
    by_cases h1 : X.dtype = DTYPE
    · by_cases h2 : X.shape.length = 2
      · have h3 : X.shape.getD 1 0 ≠ self._n_features := by tauto
        rw [if_neg (by simp [h1]), if_neg (by simp [h2]),
          if_pos (fun hx => h3 hx.symm)]
        exact Or.inr (Or.inr rfl)
      · rw [if_neg (by simp [h1]), if_pos h2]
        exact Or.inr (Or.inl rfl)
    · rw [if_pos h1]
      exact Or.inl rfl
  · intro h1 h2 h3
    simp only [predict]
    rw [if_neg (by simp [h1]), if_neg (by simp [h2]),
      if_neg (not_ne_iff.mpr h3.symm)]

/-- C6 witness: a wrong-dtype input is rejected with a validation error, and
the valid `sampleX` is accepted and evaluated. -/
theorem predict_validates_input_witness :
    (predict samplePredictor ⟨.float64, [1, 1], [[4]]⟩ =
        .error (.dtypeMismatch .float64 DTYPE) ∨
      predict samplePredictor ⟨.float64, [1, 1], [[4]]⟩ =
        .error (.notTwoDim [1, 1]) ∨
      predict samplePredictor ⟨.float64, [1, 1], [[4]]⟩ =
        .error (.nFeaturesMismatch 1 1)) ∧
    predict samplePredictor sampleX = .ok (samplePredictor,
      ⟨DTYPE, evaluatorPredict samplePredictor._evaluator sampleX 1⟩) :=
  ⟨(predict_validates_input samplePredictor ⟨.float64, [1, 1], [[4]]⟩).1
      (by decide),
   (predict_validates_input samplePredictor sampleX).2 rfl rfl (by decide)⟩

/-- C9: `predict` performs its checks in a fixed order — element type first,
then dimensionality, then feature count: a wrong-dtype input always gets the
dtype error regardless of its shape; the dimensionality error occurs exactly
for well-typed non-2-D inputs; and the feature-count error can only arise for
a two-dimensional input of the correct element type, reporting the recorded
and given counts. -/
theorem predict_checks_in_order (self : CompiledRegressionPredictor)
    (X : NDArray) :
    (X.dtype ≠ DTYPE → predict self X = .error (.dtypeMismatch X.dtype DTYPE)) ∧
    (X.dtype = DTYPE → X.shape.length ≠ 2 →
      predict self X = .error (.notTwoDim X.shape)) ∧
    (∀ a b, predict self X = .error (.nFeaturesMismatch a b) →
      X.dtype = DTYPE ∧ X.shape.length = 2 ∧ a = self._n_features ∧
      b = X.shape.getD 1 0) := by
  refine ⟨?_, ?_, ?_⟩
  · intro h1
    simp only [predict]
    rw [if_pos h1]
  · intro h1 h2
    simp only [predict]
    rw [if_neg (by simp [h1]), if_pos h2]
  · intro a b h
    simp only [predict] at h
    by_cases h1 : X.dtype = DTYPE
    · by_cases h2 : X.shape.length = 2
      · by_cases h3 : self._n_features = X.shape.getD 1 0
        · rw [if_neg (by simp [h1]), if_neg (by simp [h2]),
            if_neg (by simp [h3])] at h
          exact absurd h (by simp)
        · rw [if_neg (by simp [h1]), if_neg (by simp [h2]), if_pos h3] at h
          simp only [Except.error.injEq, PredictError.nFeaturesMismatch.injEq]
            at h
          exact ⟨h1, h2, h.1.symm, h.2.symm⟩
      · rw [if_neg (by simp [h1]), if_pos h2] at h
        exact absurd h (by simp)
    · rw [if_pos h1] at h
      exact absurd h (by simp)

/-- C9 witness: a 1-D array of the wrong element type gets the dtype error,
the earliest failing check. -/
theorem predict_checks_in_order_witness :
    predict samplePredictor ⟨.float64, [3], []⟩ =
      .error (.dtypeMismatch .float64 DTYPE) :=
  (predict_checks_in_order samplePredictor ⟨.float64, [3], []⟩).1 (by decide)

/-- C10: every `predict` call with a valid input returns the predictor state
unchanged together with a freshly allocated output array of length
`n_samples` and the expected fixed-width float dtype, so repeated calls on
the same predictor are independent. -/
theorem predict_fresh_output_and_frame (self : CompiledRegressionPredictor)
    (X : NDArray)
    (h1 : X.dtype = DTYPE) (h2 : X.shape.length = 2)
    (h3 : X.shape.getD 1 0 = self._n_features) :
    predict self X = .ok (self,
      ⟨DTYPE, evaluatorPredict self._evaluator X (X.shape.getD 0 0)⟩) ∧
    ∀ self' y, predict self X = .ok (self', y) →
      self' = self ∧ y.dtype = DTYPE ∧ y.values.length = X.shape.getD 0 0 := by
  have hok : predict self X = .ok (self,
      ⟨DTYPE, evaluatorPredict self._evaluator X (X.shape.getD 0 0)⟩) := by
    simp only [predict]
    rw [if_neg (by simp [h1]), if_neg (by simp [h2]),
      if_neg (not_ne_iff.mpr h3.symm)]
  refine ⟨hok, ?_⟩
  intro self' y h
  rw [hok] at h
  simp only [Except.ok.injEq, Prod.mk.injEq] at h
  obtain ⟨h4, h5⟩ := h
  subst h4
  subst h5
  exact ⟨rfl, rfl, by simp [evaluatorPredict]⟩

/-- C10 witness: the valid `sampleX` on `samplePredictor`. -/
theorem predict_fresh_output_and_frame_witness :
    predict samplePredictor sampleX = .ok (samplePredictor,
      ⟨DTYPE, evaluatorPredict samplePredictor._evaluator sampleX
        (sampleX.shape.getD 0 0)⟩) :=
  (predict_fresh_output_and_frame samplePredictor sampleX rfl rfl
    (by decide)).1

/-- Looking up the module bytes in the persisted dict skips the
`n_features` entry. -/
theorem lookup_so_f (nf : Nat) (m : SharedModule) :
    List.lookup "so_f" [("n_features", PyVal.int nf), ("so_f", PyVal.bytes m)]
      = some (.bytes m) := by rfl

/-- The result of `predict`, state component stripped, does not depend on the
recorded module path: the method reads only `_n_features` and the resolved
evaluation function. -/
theorem predict_ignores_so_f (nf : Nat) (c : CompiledCode) (s₁ s₂ : String)
    (X : NDArray) :
    (predict ⟨nf, ⟨c⟩, s₁⟩ X).map Prod.snd =
      (predict ⟨nf, ⟨c⟩, s₂⟩ X).map Prod.snd := by
  simp only [predict]
  split_ifs <;> simp [evaluatorPredict, Except.map]

/-- C7: restoring a predictor from its persisted form (`__setstate__` after
`__getstate__`) yields a predictor with the same recorded feature count and
the same evaluation code — hence identical `predict` output on every input —
without invoking the Compilation Pipeline again; the hypotheses say the file
at `_so_f` still holds the module this predictor was built from. -/
theorem persist_restore_roundtrip
    (fs : FileSystem) (self : CompiledRegressionPredictor) (m : SharedModule)
    (st : List (String × PyVal)) (tmp : String) (X : NDArray)
    (hm : fs self._so_f = some m)
    (hentry : m.entry = EVALUATE_FN_NAME)
    (hcode : m.code = self._evaluator.code)
    (hst : getstate fs self = some st) :
    setstate st tmp =
      some ⟨self._n_features, ⟨self._evaluator.code⟩, tmp⟩ ∧
    (predict (⟨self._n_features, ⟨self._evaluator.code⟩, tmp⟩ :
        CompiledRegressionPredictor) X).map Prod.snd =
      (predict self X).map Prod.snd := by
  obtain ⟨nf, ⟨c⟩, pth⟩ := self
  simp only at hm hcode hst ⊢
  subst hcode
  have hst' : st = [("n_features", .int nf), ("so_f", .bytes m)] := by
    simp only [getstate, hm, Option.some.injEq] at hst
    exact hst.symm
  subst hst'
  refine ⟨?_, predict_ignores_so_f nf m.code tmp pth X⟩
  simp [setstate, loadPredictor, hentry, lookup_so_f]

/-- C7 witness: round-tripping `samplePredictor` through its persisted form
restores a predictor with identical predictions on `sampleX`. -/
theorem persist_restore_roundtrip_witness :
    setstate [("n_features", .int 1), ("so_f", .bytes sampleModule)]
        "/tmp/restored.so" =
      some ⟨1, ⟨.single sampleStmt⟩, "/tmp/restored.so"⟩ ∧
    (predict (⟨1, ⟨.single sampleStmt⟩, "/tmp/restored.so"⟩ :
        CompiledRegressionPredictor) sampleX).map Prod.snd =
      (predict samplePredictor sampleX).map Prod.snd :=
  persist_restore_roundtrip sampleFS samplePredictor sampleModule
    [("n_features", .int 1), ("so_f", .bytes sampleModule)] "/tmp/restored.so"
    sampleX rfl rfl rfl (by rfl)

/-- C8 counterexample: the persisted form of the concrete `samplePredictor`
differs from the spec-described one and contains no entry-point name — its
metadata records only the feature count and the module bytes. -/
theorem getstate_lacks_entry_point_name :
    getstate sampleFS samplePredictor ≠
      getstate_spec sampleFS samplePredictor ∧
    (getstate sampleFS samplePredictor).map
        (fun st => st.lookup "entry_point") = some none := by
  constructor
  · decide
  · rfl

/-- C8 amended: the persisted form is the module bytes plus a metadata record
containing only the feature count — the entry point name is not stored;
restoration re-resolves the fixed module-level constant `EVALUATE_FN_NAME`
from the re-materialized module, succeeding exactly when the module exports
that symbol, and the restored evaluator holds that module's code. -/
theorem persisted_form_bytes_and_n_features
    (fs : FileSystem) (self : CompiledRegressionPredictor) (m : SharedModule)
    (tmp : String) (hm : fs self._so_f = some m) :
    getstate fs self =
      some [("n_features", .int self._n_features), ("so_f", .bytes m)] ∧
    ([("n_features", PyVal.int self._n_features),
        ("so_f", PyVal.bytes m)].lookup "entry_point" = none) ∧
    (m.entry = EVALUATE_FN_NAME →
      setstate [("n_features", .int self._n_features), ("so_f", .bytes m)]
          tmp =
        some ⟨self._n_features, ⟨m.code⟩, tmp⟩) ∧
    (m.entry ≠ EVALUATE_FN_NAME →
      setstate [("n_features", .int self._n_features), ("so_f", .bytes m)]
          tmp = none) := by
  refine ⟨by simp [getstate, hm], by rfl, ?_, ?_⟩
  · intro he
    simp [setstate, loadPredictor, he, lookup_so_f]
  · intro he
    simp [setstate, loadPredictor, Ne.symm he, lookup_so_f]

/-- C8 amended witness: the sample predictor's persisted form and its
restoration through the fixed entry-point name. -/
theorem persisted_form_bytes_and_n_features_witness :
    getstate sampleFS samplePredictor =
      some [("n_features", .int 1), ("so_f", .bytes sampleModule)] ∧
    setstate [("n_features", PyVal.int 1), ("so_f", PyVal.bytes sampleModule)]
        "/tmp/restored.so" =
      some ⟨1, ⟨.single sampleStmt⟩, "/tmp/restored.so"⟩ :=
  ⟨(persisted_form_bytes_and_n_features sampleFS samplePredictor sampleModule
      "/tmp/restored.so" rfl).1,
   (persisted_form_bytes_and_n_features sampleFS samplePredictor sampleModule
      "/tmp/restored.so" rfl).2.2.1 rfl⟩

end Compiledtrees
